import Mathlib

/-
Verification of the schema & validation layer of a restaurant-ordering data
model (src/convex/schema.ts). The development shallowly embeds:

* the JavaScript value universe needed by the validators (`JsValue`);
* the Convex validator combinators used by the schema (`CType`) and the
  declared tables with their fields and secondary indexes (`Schema.*`);
* the test-scaffolding helpers `validateRole`, `createUserRecord`,
  `createBranchRecord` and `tryModifyCreationTime`, translated directly from
  the TypeScript source (wall clock and random suffixes become explicit
  arguments, mutation becomes explicit state passing);
* a uniqueness-checking insert operation, modelled from the spec, since the
  repository only declares the lookup indexes used for uniqueness and the
  enforcing insert lives outside the repository.
-/

set_option autoImplicit false

universe u v

/-- The universe of JavaScript values that the validation helpers can be
handed: strings, numbers, booleans, null, undefined, objects and arrays.
Numbers are modelled as integers; none of the validation logic inspects the
fractional part of a number. -/
inductive JsValue where
  | str (s : String)
  | num (n : Int)
  | bool (b : Bool)
  | null
  | undef
  | obj (fields : List (String × JsValue))
  | arr (elems : List JsValue)

/-- Result record returned by `validateRole` in the source: an `isValid`
flag, plus an error message when validation fails. -/
structure ValidationResult where
  isValid : Bool
  error : Option String := none
deriving DecidableEq

/-- The declared role literals, from `VALID_ROLES` in the source. -/
def VALID_ROLES : List String := ["customer", "staff", "admin"]

/-- Translation of `validateRole` from the source: a non-string value is
rejected with "Role must be a string"; a string outside `VALID_ROLES` is
rejected with an "Invalid role" message; a member string is accepted. -/
def validateRole (role : JsValue) : ValidationResult :=
  match role with
  | .str s =>
      if s ∈ VALID_ROLES then
        { isValid := true }
      else
        { isValid := false, error := some ("Invalid role: " ++ s) }
  | _ => { isValid := false, error := some "Role must be a string" }

/-- Input accepted by `createUserRecord` in the source: `clerkId`, `email`
and `role` are required strings, `name` and `phoneNumber` are optional. -/
structure UserData where
  clerkId : String
  email : String
  role : String
  name : Option String
  phoneNumber : Option String
deriving DecidableEq

/-- A stored user record: the input fields plus the system-assigned
`_creationTime` and `_id`. -/
structure UserRecord where
  clerkId : String
  email : String
  role : String
  name : Option String
  phoneNumber : Option String
  _creationTime : Nat
  _id : String
deriving DecidableEq

/-- Translation of `createUserRecord`: spreads the input data and adds
`_creationTime: Date.now()` and `_id: "user_" + <random suffix>`. The wall
clock sample and the random suffix drawn inside the call are explicit
arguments `now` and `rand`. -/
def createUserRecord (now : Nat) (rand : String) (d : UserData) : UserRecord :=
  { clerkId := d.clerkId
    email := d.email
    role := d.role
    name := d.name
    phoneNumber := d.phoneNumber
    _creationTime := now
    _id := "user_" ++ rand }

/-- Input accepted by `createBranchRecord` in the source. -/
structure BranchData where
  name : String
  address : String
  city : String
  state : String
  zipCode : String
  phoneNumber : String
  email : Option String
  isActive : Bool
deriving DecidableEq

/-- A stored branch record: the input fields plus `_creationTime` and
`_id`. -/
structure BranchRecord where
  name : String
  address : String
  city : String
  state : String
  zipCode : String
  phoneNumber : String
  email : Option String
  isActive : Bool
  _creationTime : Nat
  _id : String
deriving DecidableEq

/-- Translation of `createBranchRecord`: spreads the input data and adds
`_creationTime: Date.now()` and `_id: "branch_" + <random suffix>`. -/
def createBranchRecord (now : Nat) (rand : String) (d : BranchData) : BranchRecord :=
  { name := d.name
    address := d.address
    city := d.city
    state := d.state
    zipCode := d.zipCode
    phoneNumber := d.phoneNumber
    email := d.email
    isActive := d.isActive
    _creationTime := now
    _id := "branch_" ++ rand }

/-- Result record returned by `tryModifyCreationTime`. -/
structure ModResult where
  success : Bool
deriving DecidableEq

/-- Translation of `tryModifyCreationTime`: the source function performs no
write at all and returns `{ success: false }`. State passing is explicit, so
the function returns the result together with the record as it stands after
the attempt — unchanged. -/
def tryModifyCreationTime (record : UserRecord) (newTime : Nat) :
    ModResult × UserRecord :=
  ({ success := false }, record)

/-- The validator combinators from convex/values that the schema uses:
`v.string()`, `v.number()` (float64), `v.boolean()`, `v.id(table)`,
`v.literal(s)`, `v.union(...)` (modelled as a binary union, nested for wider
unions), `v.optional(t)`, `v.array(t)` and `v.object(fields)`. -/
inductive CType where
  | string
  | float64
  | boolean
  | id (table : String)
  | literal (s : String)
  | union (left right : CType)
  | optional (t : CType)
  | array (t : CType)
  | object (fields : List (String × CType))

/-- Whether a field validator marks the field as optional. -/
def isOptionalType : CType → Bool
  | .optional _ => true
  | _ => false

/-- Every key of the candidate object is a declared field name. -/
def keysDeclared (fs : List (String × CType)) (kvs : List (String × JsValue)) : Bool :=
  kvs.all (fun kv => fs.any (fun f => f.fst == kv.fst))

mutual

/-- Modelled from the spec: value-level semantics of the validators (§4.2 —
accept exactly the declared base type; literals by case-sensitive exact
string match; a union accepts a value iff some branch does; `optional t`
additionally accepts `undefined`). The enforcing code lives in the platform,
outside this repository. -/
def checkValue (c : CType) (v : JsValue) : Bool :=
  match c, v with
  | .string, .str _ => true
  | .float64, .num _ => true
  | .boolean, .bool _ => true
  | .id _, .str _ => true
  | .literal s, .str t => s == t
  | .union a b, w => checkValue a w || checkValue b w
  | .optional _, .undef => true
  | .optional t, w => checkValue t w
  | .array t, .arr vs => checkElems t vs
  | .object fs, .obj kvs => checkFields fs kvs && keysDeclared fs kvs
  | _, _ => false
termination_by (sizeOf c, 0)

/-- Every element of the array satisfies the element validator. -/
def checkElems (t : CType) (vs : List JsValue) : Bool :=
  match vs with
  | [] => true
  | x :: xs => checkValue t x && checkElems t xs
termination_by (sizeOf t, vs.length + 1)

/-- Each declared field is either present with a conforming value, or
absent and declared optional. -/
def checkFields (fs : List (String × CType)) (kvs : List (String × JsValue)) : Bool :=
  match fs with
  | [] => true
  | (n, t) :: rest =>
      (match kvs.lookup n with
       | some w => checkValue t w
       | none => isOptionalType t) && checkFields rest kvs
termination_by (sizeOf fs, 0)

end

/-- A record (a JS object, as key/value pairs) conforms to a table's field
declarations: every declared field checks out and no undeclared field is
present. -/
def conformsTo (fs : List (String × CType)) (kvs : List (String × JsValue)) : Bool :=
  checkFields fs kvs && keysDeclared fs kvs

/-- A table declaration: the field validators (in declaration order) and the
secondary indexes (index name, key field tuple, in declaration order). -/
structure TableDef where
  fields : List (String × CType)
  indexes : List (String × List String)

namespace Schema

/-- The users table, from defineTable at src/convex/schema.ts lines 6-14. -/
def users : TableDef :=
  { fields :=
      [ ("clerkId", .string)
      , ("email", .string)
      , ("name", .optional .string)
      , ("role", .union (.literal "customer") (.union (.literal "staff") (.literal "admin")))
      , ("phoneNumber", .optional .string) ]
    indexes :=
      [ ("by_clerkId", ["clerkId"])
      , ("by_email", ["email"]) ] }

/-- The branches table, lines 17-27. -/
def branches : TableDef :=
  { fields :=
      [ ("name", .string)
      , ("address", .string)
      , ("city", .string)
      , ("state", .string)
      , ("zipCode", .string)
      , ("phoneNumber", .string)
      , ("email", .optional .string)
      , ("isActive", .boolean) ]
    indexes :=
      [ ("by_isActive", ["isActive"]) ] }

/-- The categories table, lines 30-37. -/
def categories : TableDef :=
  { fields :=
      [ ("name", .string)
      , ("description", .optional .string)
      , ("displayOrder", .optional .float64)
      , ("isActive", .boolean) ]
    indexes :=
      [ ("by_isActive", ["isActive"])
      , ("by_displayOrder", ["displayOrder"]) ] }

/-- The menuItems table, lines 40-52. -/
def menuItems : TableDef :=
  { fields :=
      [ ("categoryId", .id "categories")
      , ("branchId", .optional (.id "branches"))
      , ("name", .string)
      , ("description", .optional .string)
      , ("price", .float64)
      , ("imageUrl", .optional .string)
      , ("isAvailable", .boolean)
      , ("preparationTime", .optional .float64) ]
    indexes :=
      [ ("by_categoryId", ["categoryId"])
      , ("by_branchId", ["branchId"])
      , ("by_isAvailable_categoryId", ["isAvailable", "categoryId"]) ] }

/-- The tables table, lines 55-67. -/
def tables : TableDef :=
  { fields :=
      [ ("branchId", .id "branches")
      , ("tableNumber", .string)
      , ("capacity", .float64)
      , ("status", .union (.literal "available") (.union (.literal "occupied") (.literal "reserved"))) ]
    indexes :=
      [ ("by_branchId", ["branchId"])
      , ("by_branchId_status", ["branchId", "status"])
      , ("by_branchId_tableNumber", ["branchId", "tableNumber"]) ] }

/-- The orders table, lines 70-95. -/
def orders : TableDef :=
  { fields :=
      [ ("userId", .id "users")
      , ("branchId", .id "branches")
      , ("tableId", .optional (.id "tables"))
      , ("orderNumber", .string)
      , ("orderType", .union (.literal "dine-in") (.union (.literal "takeout") (.literal "delivery")))
      , ("status", .union (.literal "pending") (.union (.literal "confirmed") (.union (.literal "preparing") (.union (.literal "ready") (.union (.literal "completed") (.literal "cancelled"))))))
      , ("totalAmount", .float64)
      , ("notes", .optional .string) ]
    indexes :=
      [ ("by_orderNumber", ["orderNumber"])
      , ("by_userId", ["userId"])
      , ("by_branchId", ["branchId"])
      , ("by_status", ["status"])
      , ("by_branchId_status", ["branchId", "status"]) ] }

/-- The orderItems table, lines 98-107. -/
def orderItems : TableDef :=
  { fields :=
      [ ("orderId", .id "orders")
      , ("menuItemId", .id "menuItems")
      , ("quantity", .float64)
      , ("priceAtOrder", .float64)
      , ("subtotal", .float64)
      , ("specialInstructions", .optional .string) ]
    indexes :=
      [ ("by_orderId", ["orderId"])
      , ("by_menuItemId", ["menuItemId"]) ] }

/-- The payments table, lines 110-129. -/
def payments : TableDef :=
  { fields :=
      [ ("orderId", .id "orders")
      , ("stripePaymentIntentId", .optional .string)
      , ("amount", .float64)
      , ("status", .union (.literal "pending") (.union (.literal "succeeded") (.union (.literal "failed") (.literal "refunded"))))
      , ("paymentMethod", .union (.literal "card") (.union (.literal "cash") (.literal "other")))
      , ("transactionDate", .optional .float64) ]
    indexes :=
      [ ("by_orderId", ["orderId"])
      , ("by_stripePaymentIntentId", ["stripePaymentIntentId"])
      , ("by_status", ["status"]) ] }

/-- The analytics table, lines 132-149. -/
def analytics : TableDef :=
  { fields :=
      [ ("branchId", .optional (.id "branches"))
      , ("periodStart", .float64)
      , ("periodEnd", .float64)
      , ("totalRevenue", .float64)
      , ("orderCount", .float64)
      , ("customerCount", .float64)
      , ("averageOrderValue", .float64)
      , ("topMenuItems", .optional (.array (.object
          [ ("menuItemId", .id "menuItems")
          , ("name", .string)
          , ("orderCount", .float64)
          , ("revenue", .float64) ]))) ]
    indexes :=
      [ ("by_branchId", ["branchId"])
      , ("by_branchId_periodStart", ["branchId", "periodStart"])
      , ("by_periodStart_periodEnd", ["periodStart", "periodEnd"]) ] }

/-- The whole schema, in the order of the defineSchema call. -/
def schema : List (String × TableDef) :=
  [ ("users", users)
  , ("branches", branches)
  , ("categories", categories)
  , ("menuItems", menuItems)
  , ("tables", tables)
  , ("orders", orders)
  , ("orderItems", orderItems)
  , ("payments", payments)
  , ("analytics", analytics) ]

end Schema

/-- The index catalogue read off the schema declarations: one
(collection, key field tuple) pair per declared index, in declaration
order. -/
def codeIndexCatalogue : List (String × List String) :=
  Schema.schema.flatMap (fun t => t.snd.indexes.map (fun i => (t.fst, i.snd)))

/-- Modelled from the spec: the index catalogue exactly as the words of §6
list it, collection by collection. -/
def specIndexCatalogue : List (String × List String) :=
  [ ("users", ["clerkId"]), ("users", ["email"])
  , ("branches", ["isActive"])
  , ("categories", ["isActive"]), ("categories", ["displayOrder"])
  , ("menuItems", ["categoryId"]), ("menuItems", ["branchId"])
  , ("menuItems", ["isAvailable", "categoryId"])
  , ("tables", ["branchId"]), ("tables", ["branchId", "status"])
  , ("tables", ["branchId", "tableNumber"])
  , ("orders", ["orderNumber"]), ("orders", ["userId"])
  , ("orders", ["branchId"]), ("orders", ["status"])
  , ("orders", ["branchId", "status"])
  , ("orderItems", ["orderId"]), ("orderItems", ["menuItemId"])
  , ("payments", ["orderId"]), ("payments", ["stripePaymentIntentId"])
  , ("payments", ["status"])
  , ("analytics", ["branchId"]), ("analytics", ["branchId", "periodStart"])
  , ("analytics", ["periodStart", "periodEnd"]) ]

/-- Error taxonomy of the spec (§7); only the uniqueness case is needed by
the insert model. -/
inductive DbError where
  | uniquenessViolation
deriving DecidableEq

/-- A stored order record, with the declared fields (enumerated fields kept
as strings, already validated) plus the system fields. -/
structure OrderRecord where
  userId : String
  branchId : String
  tableId : Option String
  orderNumber : String
  orderType : String
  status : String
  totalAmount : Int
  notes : Option String
  _creationTime : Nat
  _id : String
deriving DecidableEq

/-- A stored table record. -/
structure TableRecord where
  branchId : String
  tableNumber : String
  capacity : Int
  status : String
  _creationTime : Nat
  _id : String
deriving DecidableEq

/-- The uniqueness key of a table record: the (branchId, tableNumber)
pair, matching the by_branchId_tableNumber index. -/
def tableKey (t : TableRecord) : String × String :=
  (t.branchId, t.tableNumber)

/-- Modelled from the spec: a transactional check-then-insert (§5, §7). The
insert looks the presented key up through the matching equality index; if a
stored record already carries the same key the insert fails with a
UniquenessViolation and no state is persisted, otherwise the record is
appended. -/
def insertUnique {α : Type u} {κ : Type v} [DecidableEq κ] (key : α → κ)
    (store : List α) (x : α) : Except DbError (List α) :=
  if store.any (fun y => key y = key x) then
    .error .uniquenessViolation
  else
    .ok (store ++ [x])

/-- Insert of a user, keyed by clerkId through the by_clerkId index. -/
def insertUser : List UserRecord → UserRecord → Except DbError (List UserRecord) :=
  insertUnique (fun u => u.clerkId)

/-- Insert of an order, keyed by orderNumber through the by_orderNumber
index. -/
def insertOrder : List OrderRecord → OrderRecord → Except DbError (List OrderRecord) :=
  insertUnique (fun o => o.orderNumber)

/-- Insert of a table, keyed by (branchId, tableNumber) through the
by_branchId_tableNumber index. -/
def insertTable : List TableRecord → TableRecord → Except DbError (List TableRecord) :=
  insertUnique tableKey

/-- The stores reachable from the empty store by successful inserts. -/
inductive Reachable {α : Type u} (ins : List α → α → Except DbError (List α)) :
    List α → Prop where
  | empty : Reachable ins []
  | insert {s : List α} {x : α} {s2 : List α} :
      Reachable ins s → ins s x = .ok s2 → Reachable ins s2

/-- Sample records used by witness statements. -/
def sampleUserA : UserRecord :=
  { clerkId := "u1", email := "a@b.com", role := "customer", name := none,
    phoneNumber := none, _creationTime := 1, _id := "user_aaa" }

/-- A second sample user presenting the same clerkId as sampleUserA. -/
def sampleUserB : UserRecord :=
  { clerkId := "u1", email := "c@d.com", role := "staff", name := none,
    phoneNumber := none, _creationTime := 2, _id := "user_bbb" }

/-- Sample branch data used by witness statements. -/
def sampleBranchData : BranchData :=
  { name := "Main", address := "1 St", city := "Springfield", state := "IL",
    zipCode := "62701", phoneNumber := "555", email := none, isActive := true }

/-- User data differing from dupUserDataB in every required field. -/
def dupUserDataA : UserData :=
  { clerkId := "c1", email := "e1", role := "customer", name := none, phoneNumber := none }

/-- User data differing from dupUserDataA in every required field. -/
def dupUserDataB : UserData :=
  { clerkId := "c2", email := "e2", role := "staff", name := none, phoneNumber := none }

/-- The field names declared on the payments table, in declaration order. -/
def paymentsFieldNames : List String := Schema.payments.fields.map Prod.fst

/-- A candidate table record whose tableNumber is a number. -/
def numericTableRecordJs : List (String × JsValue) :=
  [ ("branchId", .str "b1"), ("tableNumber", .num 5)
  , ("capacity", .num 4), ("status", .str "available") ]

/-- The same candidate record with tableNumber as a string. -/
def stringTableRecordJs : List (String × JsValue) :=
  [ ("branchId", .str "b1"), ("tableNumber", .str "5")
  , ("capacity", .num 4), ("status", .str "available") ]

theorem insertUnique_ok {α : Type u} {κ : Type v} [DecidableEq κ] (key : α → κ)
    (s : List α) (x : α) (s2 : List α) (h : insertUnique key s x = .ok s2) :
    (∀ y ∈ s, key y ≠ key x) ∧ s2 = s ++ [x] := by
  simp only [insertUnique] at h
  split at h
  · exact Except.noConfusion h
  · next hc =>
      simp only [List.any_eq_true, decide_eq_true_eq, not_exists, not_and] at hc
      exact ⟨hc, (Except.ok.inj h).symm⟩

theorem insertUnique_dup {α : Type u} {κ : Type v} [DecidableEq κ] (key : α → κ)
    (s : List α) (x : α) (s2 : List α) (y : α)
    (h : insertUnique key s x = .ok s2) (hk : key y = key x) :
    insertUnique key s2 y = .error .uniquenessViolation := by
  obtain ⟨hall, hs2⟩ := insertUnique_ok key s x s2 h
  subst hs2
  have hany : ((s ++ [x]).any (fun z => key z = key y)) = true := by
    simp only [List.any_eq_true, decide_eq_true_eq]
    exact ⟨x, by simp, hk.symm⟩
  simp [insertUnique, hany]

theorem reachable_pairwise {α : Type u} {κ : Type v} [DecidableEq κ] (key : α → κ)
    (s : List α) (h : Reachable (insertUnique key) s) :
    s.Pairwise (fun a b => key a ≠ key b) := by
  induction h with
  | empty => exact List.Pairwise.nil
  | insert hr hok ih =>
      obtain ⟨hall, hs2⟩ := insertUnique_ok key _ _ _ hok
      subst hs2
      refine List.pairwise_append.mpr ⟨ih, List.pairwise_singleton _ _, ?_⟩
      intro a ha b hb
      rw [List.mem_singleton] at hb
      subst hb
      exact hall a ha

/-- C1: validateRole accepts a candidate value exactly when it is a string
equal to one of the declared literals "customer", "staff", "admin"; every
other string (case variants included) and every non-string value is
rejected. -/
theorem validateRole_isValid_iff (w : JsValue) :
    (validateRole w).isValid = true ↔
      ∃ s, w = JsValue.str s ∧ (s = "customer" ∨ s = "staff" ∨ s = "admin") := by
  cases w <;> simp [validateRole, VALID_ROLES] <;> split <;> simp_all

/-- Witness for C1 at the concrete input "customer". -/
theorem validateRole_isValid_iff_witness :
    (validateRole (JsValue.str "customer")).isValid = true :=
  (validateRole_isValid_iff (JsValue.str "customer")).mpr
    ⟨"customer", rfl, Or.inl rfl⟩

/-- C2: with a monotone wall clock sampled at instants 0 (before the call),
1 (inside the creating call) and 2 (after the call), the _creationTime
assigned by createUserRecord and createBranchRecord lies between the
bracketing samples. -/
theorem creationTime_bounds (clock : Nat → Nat) (hclock : Monotone clock)
    (rand1 rand2 : String) (u : UserData) (b : BranchData) :
    clock 0 ≤ (createUserRecord (clock 1) rand1 u)._creationTime ∧
      (createUserRecord (clock 1) rand1 u)._creationTime ≤ clock 2 ∧
      clock 0 ≤ (createBranchRecord (clock 1) rand2 b)._creationTime ∧
      (createBranchRecord (clock 1) rand2 b)._creationTime ≤ clock 2 :=
  ⟨hclock (Nat.le_succ 0), hclock (Nat.le_succ 1),
   hclock (Nat.le_succ 0), hclock (Nat.le_succ 1)⟩

/-- Witness for C2 with the identity clock. -/
theorem creationTime_bounds_witness :
    0 ≤ (createUserRecord 1 "r1" dupUserDataA)._creationTime ∧
      (createUserRecord 1 "r1" dupUserDataA)._creationTime ≤ 2 ∧
      0 ≤ (createBranchRecord 1 "r2" sampleBranchData)._creationTime ∧
      (createBranchRecord 1 "r2" sampleBranchData)._creationTime ≤ 2 :=
  creationTime_bounds (fun n => n) (fun _ _ h => h) "r1" "r2"
    dupUserDataA sampleBranchData

/-- C3: an attempt to modify the creation timestamp of a created record
reports success = false, and the record after the attempt is unchanged, its
_creationTime still the value assigned at creation. -/
theorem tryModifyCreationTime_immutable (now : Nat) (rand : String)
    (d : UserData) (newTime : Nat) :
    (tryModifyCreationTime (createUserRecord now rand d) newTime).fst.success = false ∧
      (tryModifyCreationTime (createUserRecord now rand d) newTime).snd =
        createUserRecord now rand d ∧
      (tryModifyCreationTime (createUserRecord now rand d) newTime).snd._creationTime = now :=
  ⟨rfl, rfl, rfl⟩

/-- C4: for two inserts presenting the same clerkId (users), orderNumber
(orders) or (branchId, tableNumber) pair (tables), if the first succeeds the
second reports a UniquenessViolation; and in every store reachable from the
empty store by successful inserts, no two users share a clerkId, no two
orders share an orderNumber, and no two tables share a
(branchId, tableNumber) pair. -/
theorem uniqueness_enforced :
    (∀ (s : List UserRecord) (u1 u2 : UserRecord) (s2 : List UserRecord),
        insertUser s u1 = .ok s2 → u2.clerkId = u1.clerkId →
        insertUser s2 u2 = .error .uniquenessViolation) ∧
    (∀ (s : List OrderRecord) (o1 o2 : OrderRecord) (s2 : List OrderRecord),
        insertOrder s o1 = .ok s2 → o2.orderNumber = o1.orderNumber →
        insertOrder s2 o2 = .error .uniquenessViolation) ∧
    (∀ (s : List TableRecord) (t1 t2 : TableRecord) (s2 : List TableRecord),
        insertTable s t1 = .ok s2 → tableKey t2 = tableKey t1 →
        insertTable s2 t2 = .error .uniquenessViolation) ∧
    (∀ s : List UserRecord, Reachable insertUser s →
        s.Pairwise (fun a b => a.clerkId ≠ b.clerkId)) ∧
    (∀ s : List OrderRecord, Reachable insertOrder s →
        s.Pairwise (fun a b => a.orderNumber ≠ b.orderNumber)) ∧
    (∀ s : List TableRecord, Reachable insertTable s →
        s.Pairwise (fun a b => tableKey a ≠ tableKey b)) :=
  ⟨fun s u1 u2 s2 h1 h2 =>
      insertUnique_dup (fun u : UserRecord => u.clerkId) s u1 s2 u2 h1 h2,
   fun s o1 o2 s2 h1 h2 =>
      insertUnique_dup (fun o : OrderRecord => o.orderNumber) s o1 s2 o2 h1 h2,
   fun s t1 t2 s2 h1 h2 => insertUnique_dup tableKey s t1 s2 t2 h1 h2,
   fun s h => reachable_pairwise (fun u : UserRecord => u.clerkId) s h,
   fun s h => reachable_pairwise (fun o : OrderRecord => o.orderNumber) s h,
   fun s h => reachable_pairwise tableKey s h⟩

/-- Witness for C4: inserting sampleUserA into the empty store succeeds, and
a second user with the same clerkId is then rejected; the empty store has
pairwise distinct clerkIds. -/
theorem uniqueness_enforced_witness :
    insertUser [sampleUserA] sampleUserB = .error .uniquenessViolation ∧
      ([] : List UserRecord).Pairwise (fun a b => a.clerkId ≠ b.clerkId) :=
  ⟨uniqueness_enforced.1 [] sampleUserA sampleUserB [sampleUserA] rfl rfl,
   uniqueness_enforced.2.2.2.1 [] Reachable.empty⟩

/-- C5 counterexample: the payments table also declares a transactionDate
field, which is outside the field set the claim lists. -/
theorem payments_extra_field_cex :
    (paymentsFieldNames.contains "transactionDate") = true ∧
      ((["orderId", "stripePaymentIntentId", "amount", "paymentMethod",
          "status"] : List String).contains "transactionDate") = false := by
  exact ⟨by decide, by decide⟩

/-- C5 (amended): the payments table declares exactly orderId,
stripePaymentIntentId (optional), amount, status, paymentMethod and
transactionDate (optional number), with status drawn from
pending/succeeded/failed/refunded and paymentMethod from card/cash/other. -/
theorem payments_fields_amended :
    paymentsFieldNames =
        ["orderId", "stripePaymentIntentId", "amount", "status",
          "paymentMethod", "transactionDate"] ∧
      Schema.payments.fields.lookup "orderId" = some (.id "orders") ∧
      Schema.payments.fields.lookup "stripePaymentIntentId" = some (.optional .string) ∧
      Schema.payments.fields.lookup "amount" = some .float64 ∧
      Schema.payments.fields.lookup "status" =
        some (.union (.literal "pending") (.union (.literal "succeeded")
          (.union (.literal "failed") (.literal "refunded")))) ∧
      Schema.payments.fields.lookup "paymentMethod" =
        some (.union (.literal "card") (.union (.literal "cash") (.literal "other"))) ∧
      Schema.payments.fields.lookup "transactionDate" = some (.optional .float64) :=
  ⟨rfl, rfl, rfl, rfl, rfl, rfl, rfl⟩

/-- C6: the indexes declared in the schema are exactly the catalogue of
spec §6, collection by collection, with the key fields of each index in the
listed order. -/
theorem index_catalogue_matches : codeIndexCatalogue = specIndexCatalogue := rfl

theorem string_append_left_cancel_iff (p a b : String) :
    p ++ a = p ++ b ↔ a = b := by
  constructor
  · intro h
    have h2 : (p ++ a).data = (p ++ b).data := congrArg String.data h
    rw [String.data_append, String.data_append] at h2
    exact String.ext (List.append_cancel_left h2)
  · intro h
    rw [h]

theorem user_branch_id_disjoint (a b : String) :
    "user_" ++ a ≠ "branch_" ++ b := by
  intro h
  have h2 : ("user_" ++ a).data = ("branch_" ++ b).data := congrArg String.data h
  rw [String.data_append, String.data_append] at h2
  have h3 : ("user_" : String).data = ['u', 's', 'e', 'r', '_'] := rfl
  have h4 : ("branch_" : String).data = ['b', 'r', 'a', 'n', 'c', 'h', '_'] := rfl
  rw [h3, h4] at h2
  simp at h2

/-- C7: a user record created with the optional name omitted reads back with
name absent — not the empty string (and null is not even an inhabitant of
the field's type). -/
theorem optional_name_absent (now : Nat) (rand : String) (c e ro : String)
    (p : Option String) :
    (createUserRecord now rand ⟨c, e, ro, none, p⟩).name = none ∧
      (createUserRecord now rand ⟨c, e, ro, none, p⟩).name ≠ some "" :=
  ⟨rfl, fun h => Option.noConfusion h⟩

/-- Witness for C7 at a concrete creation. -/
theorem optional_name_absent_witness :
    (createUserRecord 1 "r" ⟨"c", "e", "customer", none, none⟩).name = none ∧
      (createUserRecord 1 "r" ⟨"c", "e", "customer", none, none⟩).name ≠ some "" :=
  optional_name_absent 1 "r" "c" "e" "customer" none

/-- C8 counterexample: two distinct creations — different input data and
different wall-clock samples — that draw the same random suffix are assigned
the same _id. -/
theorem id_collision_cex :
    (createUserRecord 100 "abcdefghi" dupUserDataA)._id =
        (createUserRecord 200 "abcdefghi" dupUserDataB)._id ∧
      (dupUserDataA == dupUserDataB) = false ∧
      (createUserRecord 100 "abcdefghi" dupUserDataA ==
        createUserRecord 200 "abcdefghi" dupUserDataB) = false :=
  ⟨rfl, by decide, by decide⟩

/-- C8 (amended): within a collection the _id values of two creations are
distinct exactly when the random suffixes drawn differ, and a user _id never
collides with a branch _id thanks to the collection prefix. -/
theorem id_distinct_iff (n1 n2 : Nat) (r1 r2 : String) (d1 d2 : UserData)
    (b1 b2 : BranchData) :
    ((createUserRecord n1 r1 d1)._id = (createUserRecord n2 r2 d2)._id ↔ r1 = r2) ∧
      ((createBranchRecord n1 r1 b1)._id = (createBranchRecord n2 r2 b2)._id ↔ r1 = r2) ∧
      (createUserRecord n1 r1 d1)._id ≠ (createBranchRecord n2 r2 b2)._id :=
  ⟨string_append_left_cancel_iff "user_" r1 r2,
   string_append_left_cancel_iff "branch_" r1 r2,
   user_branch_id_disjoint r1 r2⟩

/-- Witness for C8 (amended) at concrete suffixes. -/
theorem id_distinct_iff_witness :
    ((createUserRecord 1 "aaa" dupUserDataA)._id =
        (createUserRecord 2 "bbb" dupUserDataA)._id ↔ ("aaa" : String) = "bbb") ∧
      ((createBranchRecord 1 "aaa" sampleBranchData)._id =
        (createBranchRecord 2 "bbb" sampleBranchData)._id ↔ ("aaa" : String) = "bbb") ∧
      (createUserRecord 1 "aaa" dupUserDataA)._id ≠
        (createBranchRecord 2 "bbb" sampleBranchData)._id :=
  id_distinct_iff 1 2 "aaa" "bbb" dupUserDataA dupUserDataA
    sampleBranchData sampleBranchData

/-- C9: tableNumber is declared as a string, not a number; a candidate table
record whose tableNumber is numeric does not conform to the declaration
(while the same record with a string tableNumber does), and the
(branchId, tableNumber) uniqueness key compares table numbers as strings, so
"1" and "01" give different keys. -/
theorem tableNumber_declared_string :
    Schema.tables.fields.lookup "tableNumber" = some CType.string ∧
      CType.string ≠ CType.float64 ∧
      conformsTo Schema.tables.fields numericTableRecordJs = false ∧
      conformsTo Schema.tables.fields stringTableRecordJs = true ∧
      (∀ (b : String) (c1 c2 : Int) (s1 s2 : String) (n1 n2 : Nat) (i1 i2 : String),
        tableKey ⟨b, "1", c1, s1, n1, i1⟩ ≠ tableKey ⟨b, "01", c2, s2, n2, i2⟩) := by
  refine ⟨rfl, fun h => CType.noConfusion h, ?_, ?_, ?_⟩
  · simp [conformsTo, checkFields, checkValue, keysDeclared, isOptionalType,
      Schema.tables, numericTableRecordJs, List.lookup]
  · simp [conformsTo, checkFields, checkValue, keysDeclared, isOptionalType,
      Schema.tables, stringTableRecordJs, List.lookup]
  · intro b c1 c2 s1 s2 n1 n2 i1 i2 h
    have h2 : ("1" : String) = "01" := congrArg Prod.snd h
    exact absurd h2 (by decide)

/-- Witness for C9 at a concrete pair of table records. -/
theorem tableNumber_declared_string_witness :
    tableKey ⟨"b1", "1", 4, "available", 0, "table_a"⟩ ≠
      tableKey ⟨"b1", "01", 4, "available", 0, "table_b"⟩ :=
  tableNumber_declared_string.2.2.2.2 "b1" 4 4 "available" "available" 0 0
    "table_a" "table_b"

/-- C10: createUserRecord and createBranchRecord preserve every input field
unchanged in the returned record, and the only fields they add are _id and
_creationTime (the record types have no further fields). -/
theorem create_preserves_fields (now : Nat) (rand : String) (d : UserData)
    (b : BranchData) :
    (createUserRecord now rand d).clerkId = d.clerkId ∧
      (createUserRecord now rand d).email = d.email ∧
      (createUserRecord now rand d).role = d.role ∧
      (createUserRecord now rand d).name = d.name ∧
      (createUserRecord now rand d).phoneNumber = d.phoneNumber ∧
      (createUserRecord now rand d)._creationTime = now ∧
      (createUserRecord now rand d)._id = "user_" ++ rand ∧
      (createBranchRecord now rand b).name = b.name ∧
      (createBranchRecord now rand b).address = b.address ∧
      (createBranchRecord now rand b).city = b.city ∧
      (createBranchRecord now rand b).state = b.state ∧
      (createBranchRecord now rand b).zipCode = b.zipCode ∧
      (createBranchRecord now rand b).phoneNumber = b.phoneNumber ∧
      (createBranchRecord now rand b).email = b.email ∧
      (createBranchRecord now rand b).isActive = b.isActive ∧
      (createBranchRecord now rand b)._creationTime = now ∧
      (createBranchRecord now rand b)._id = "branch_" ++ rand :=
  ⟨rfl, rfl, rfl, rfl, rfl, rfl, rfl, rfl, rfl, rfl, rfl, rfl, rfl, rfl, rfl,
   rfl, rfl⟩
